import Mathlib

/-!
Shallow embedding of `src/Trashcan-Panda-i2c-Test.ino`, a Particle sketch
that brings up a TOF distance sensor, a LIS3DH accelerometer, an AB1805
RTC/watchdog and an MB85RC64 FRAM on a shared i2c bus, runs a one-shot
power-cycle self-test, and then samples at a fixed rate.

External hardware is modelled by environments: every fallible driver call
(`accel.setup`, `distanceSensor.begin`, `fram.get`, `ab1805.detectChip`,
`Wire.endTransmission`) is represented by a field of an environment record
holding the value the hardware would return on that call.  The sketch's
global mutable variables (lines 40-46) form the `SysState` record, and
`setup`/`loopStep` are explicit state transformers on it.  Side effects that
matter to the specification (FRAM writes, watchdog arming, the terminal
accept/halt decision) are recorded in explicit operation traces.
-/

namespace TrashcanPanda

/-! ## Bus scanner: `i2cScan`, .ino lines 205-243 -/

/-- The one log line `i2cScan` produces: a device list, the no-device
message, or the bus-fault message naming the faulting address.  These are
the three mutually exclusive report forms of lines 219-241. -/
inductive ScanReport where
  | found (addrs : List Nat)
  | noDevices
  | busFault (addr : Nat)
deriving DecidableEq

/-- Accumulator of the scan loop: addresses that acknowledged so far
(`nDevices` devices appended to `resultStr`), every address probed so far,
and the address at which error code 4 aborted the scan, if any. -/
structure ScanAcc where
  devs : List Nat
  probed : List Nat
  fault : Option Nat
deriving DecidableEq

/-- Loop body of `i2cScan`, lines 211-233.  `outcome a` is the status code
`Wire.endTransmission()` returns after addressing `a`: 0 means a device
acknowledged, 4 is the bus-fault code, anything else is treated as no
device.  On an acknowledgment the address is appended and the loop breaks
once the report capacity of 9 devices is reached (line 225); on error 4 the
function returns at once (lines 228-232). -/
def scanGo (outcome : Nat → Nat) (addrs : List Nat) (devs probed : List Nat) : ScanAcc :=
  match addrs with
  | [] => ⟨devs, probed, none⟩
  | a :: rest =>
    if outcome a = 0 then
      if (devs ++ [a]).length = 9 then ⟨devs ++ [a], probed ++ [a], none⟩
      else scanGo outcome rest (devs ++ [a]) (probed ++ [a])
    else if outcome a = 4 then ⟨devs, probed ++ [a], some a⟩
    else scanGo outcome rest devs (probed ++ [a])

/-- Addresses the scan iterates over: `for(address = 1; address < 127; ...)`,
i.e. 1 through 126 inclusive. -/
def scanAddresses : List Nat := List.range' 1 126

/-- Observable result of one `i2cScan()` call: the report it logs, the
boolean it returns to its caller, and (for reasoning about what the scan
touched) the list of addresses it actually probed, in order. -/
structure ScanRun where
  report : ScanReport
  retval : Bool
  probed : List Nat

/-- Lines 228-242: a fault has already produced the fault report and
`return 0`; otherwise `nDevices == 0` yields the no-device report and
`return 0`, and a non-empty device list is logged with `return 1`. -/
def scanFinish (acc : ScanAcc) : ScanRun :=
  match acc.fault with
  | some a => ⟨ScanReport.busFault a, false, acc.probed⟩
  | none =>
    if acc.devs.length = 0 then ⟨ScanReport.noDevices, false, acc.probed⟩
    else ⟨ScanReport.found acc.devs, true, acc.probed⟩

/-- `i2cScan()` for a bus whose per-address transaction outcomes are given
by `outcome`. -/
def i2cScan (outcome : Nat → Nat) : ScanRun :=
  scanFinish (scanGo outcome scanAddresses [] [])

/-- The ordered device list carried by the report ([] for the no-device and
bus-fault reports, which list no discovered addresses). -/
def ScanRun.devices (r : ScanRun) : List Nat :=
  match r.report with
  | ScanReport.found l => l
  | _ => []

/-- True exactly when the report is the device-list form, the only case in
which `i2cScan` returns 1. -/
def ScanRun.reportListsDevices (r : ScanRun) : Bool :=
  match r.report with
  | ScanReport.found _ => true
  | _ => false

/-! ## FRAM version check: lines 45 and 89-107 -/

/-- Line 45. -/
def FRAMversionNumber : Nat := 42

namespace FRAM

/-- Line 50. -/
def versionAddr : Nat := 0x00

/-- Line 51. -/
def systemStatusAddr : Nat := 0x01

/-- Line 52. -/
def currentCountsAddr : Nat := 0x50

end FRAM

/-- An operation performed on the FRAM module. -/
inductive FramOp where
  | get (addr : Nat)
  | erase
  | put (addr val : Nat)
deriving DecidableEq

/-- What the FRAM hardware answers during the version check: the byte the
first `fram.get(FRAM::versionAddr, ...)` (line 92) returns, and the byte
the read-back `fram.get` after the erase/rewrite (line 97) returns. -/
structure FramEnv where
  storedVersion : Nat
  readBackVersion : Nat
deriving DecidableEq

/-- Lines 91-107: compare the stored version byte with
`FRAMversionNumber`; on mismatch erase the store, write the expected
version, read it back and fail the store-integrity check if it still
mismatches.  Returns the verdict the sketch assigns to `carrierOnline`
at this point, paired with the ordered list of FRAM operations issued. -/
def framCheck (env : FramEnv) : Bool × List FramOp :=
  if env.storedVersion ≠ FRAMversionNumber then
    (if env.readBackVersion ≠ FRAMversionNumber then false else true,
      [FramOp.get FRAM.versionAddr, FramOp.erase,
       FramOp.put FRAM.versionAddr FRAMversionNumber,
       FramOp.get FRAM.versionAddr])
  else (true, [FramOp.get FRAM.versionAddr])

/-! ## Global state and `setup()`: lines 40-46 and 57-131 -/

/-- The sketch's global mutable variables, lines 40-46 (plus the sample
timer of line 43). -/
structure SysState where
  sensorOnlineTOF : Bool
  sensorOnlineLIS3DH : Bool
  carrierOnline : Bool
  powerCycleOnce : Bool
  lastSampleTimestamp : Nat
deriving DecidableEq

/-- Global initializers: all health flags false, the one-shot power-cycle
latch armed (line 46), the timer zero-initialized. -/
def initState : SysState :=
  { sensorOnlineTOF := false
    sensorOnlineLIS3DH := false
    carrierOnline := false
    powerCycleOnce := true
    lastSampleTimestamp := 0 }

/-- Hardware responses consumed by `setup()`: the bus outcomes of the
diagnostic scan (line 69), the result of `accel.setup(config)` (line 75),
the code `distanceSensor.begin()` returns (line 83, 0 on success), the
FRAM answers, and the result of `ab1805.detectChip()` (line 112). -/
structure SetupEnv where
  scanOutcome : Nat → Nat
  accelSetupOk : Bool
  tofBeginCode : Nat
  fram : FramEnv
  rtcDetected : Bool

/-- Externally visible operations `setup()` performs, in program order. -/
inductive SetupOp where
  | wireBegin
  | pinConfig
  | delayMs (ms : Nat)
  | scanOp (r : ScanReport)
  | accelSetup (ok : Bool)
  | tofBegin (code : Nat)
  | framBegin
  | framOps (ops : List FramOp)
  | rtcSetup
  | armWatchdogMax
  | rtcDetect (found : Bool)
  | accept
  | haltForever
deriving DecidableEq

/-- Result of running `setup()`: the global state it leaves behind, the
ordered trace of operations it performed, and whether it ended in the
permanent `while(1);` halt of line 128. -/
structure SetupResult where
  state : SysState
  trace : List SetupOp
  halted : Bool

/-- `setup()`, lines 58-131.  The accelerometer flag is set true on
successful `accel.setup` (lines 76-80), the TOF flag on
`distanceSensor.begin() == 0` (lines 83-87); on failure each assignment is
skipped, leaving the flag at its previous value.  `carrierOnline` is set by
the FRAM version check (lines 93-107) and then cleared if
`ab1805.detectChip()` fails (lines 112-118, literally
`if (carrierOnline) carrierOnline = false;`).  The watchdog is armed at
`AB1805::WATCHDOG_MAX_SECONDS` unconditionally at line 111, before the
terminal accept/halt decision of lines 120-129. -/
def setup (s : SysState) (env : SetupEnv) : SetupResult :=
  let lis := if env.accelSetupOk then true else s.sensorOnlineLIS3DH
  let tof := if env.tofBeginCode = 0 then true else s.sensorOnlineTOF
  let fres := framCheck env.fram
  let carrier := if env.rtcDetected then fres.1 else (if fres.1 then false else fres.1)
  let halted := !(lis && tof && carrier)
  { state :=
      { s with
        sensorOnlineLIS3DH := lis
        sensorOnlineTOF := tof
        carrierOnline := carrier }
    trace :=
      [SetupOp.wireBegin, SetupOp.pinConfig, SetupOp.delayMs 1000,
       SetupOp.scanOp (i2cScan env.scanOutcome).report,
       SetupOp.accelSetup env.accelSetupOk,
       SetupOp.tofBegin env.tofBeginCode,
       SetupOp.framBegin, SetupOp.framOps fres.2,
       SetupOp.rtcSetup, SetupOp.armWatchdogMax,
       SetupOp.rtcDetect env.rtcDetected,
       if halted then SetupOp.haltForever else SetupOp.accept]
    halted := halted }

/-! ## The sampling loop and one-shot self-test: `loop()`, lines 134-203 -/

/-- Line 44 (`unsigned long sampleRateMillis = 2000;`, never reassigned). -/
def sampleRateMillis : Nat := 2000

/-- Modulus of the 32-bit `unsigned long` arithmetic `millis()` uses. -/
def U32 : Nat := 4294967296

/-- The wrap-around difference `a - b` as computed on `unsigned long`. -/
def u32sub (a b : Nat) : Nat := (a % U32 + U32 - b % U32) % U32

/-- Hardware responses consumed by one `loop()` iteration: the two
`millis()` readings (line 136 and line 137), the sensor readings, the bus
outcomes of the three self-test scans (lines 165, 170, 175), and the
results of the self-test driver calls (lines 171, 180, 188). -/
structure LoopEnv where
  now : Nat
  nowAtUpdate : Nat
  tofDistance : Int
  accelSampleOk : Bool
  scanWithPower : Nat → Nat
  scanWithoutPower : Nat → Nat
  scanRestored : Nat → Nat
  rtcDetected : Bool
  accelReSetupOk : Bool
  tofReBeginCode : Nat

/-- The interval gate of line 136:
`millis() - lastSampleTimestamp > sampleRateMillis` (strict, in 32-bit
wrap-around arithmetic). -/
def sampleDue (s : SysState) (e : LoopEnv) : Bool :=
  decide (sampleRateMillis < u32sub e.now s.lastSampleTimestamp)

/-- Observable outcome of one `loop()` iteration. -/
structure LoopResult where
  state : SysState
  sampled : Bool
  sampledTOF : Bool
  sampledLIS : Bool
  ranSelfTest : Bool
  selfTestScans : List ScanReport
  halted : Bool

/-- One iteration of `loop()`, lines 134-203.  First the interval-gated
sampling block (lines 136-160): when due, `lastSampleTimestamp` is updated
and each sensor whose flag is set is sampled.  Then the one-shot
power-cycle block (lines 162-201): if `powerCycleOnce` is still armed it is
cleared first (line 163), the three scans and the RTC detection run for
diagnostics, and the accelerometer and TOF initializations are re-run
exactly as in `setup` — each flag is assigned true on success and left
unchanged on failure (lines 180-192).  The iteration ends in the permanent
halt of line 198 exactly when the self-test ran and the two sensor flags
are not both true afterwards. -/
def loopStep (s : SysState) (e : LoopEnv) : LoopResult :=
  if s.powerCycleOnce then
    { state :=
        { s with
          lastSampleTimestamp := if sampleDue s e then e.nowAtUpdate else s.lastSampleTimestamp
          powerCycleOnce := false
          sensorOnlineLIS3DH := if e.accelReSetupOk then true else s.sensorOnlineLIS3DH
          sensorOnlineTOF := if e.tofReBeginCode = 0 then true else s.sensorOnlineTOF }
      sampled := sampleDue s e
      sampledTOF := sampleDue s e && s.sensorOnlineTOF
      sampledLIS := sampleDue s e && s.sensorOnlineLIS3DH
      ranSelfTest := true
      selfTestScans :=
        [(i2cScan e.scanWithPower).report,
         (i2cScan e.scanWithoutPower).report,
         (i2cScan e.scanRestored).report]
      halted := !((if e.accelReSetupOk then true else s.sensorOnlineLIS3DH) &&
                  (if e.tofReBeginCode = 0 then true else s.sensorOnlineTOF)) }
  else
    { state :=
        { s with
          lastSampleTimestamp := if sampleDue s e then e.nowAtUpdate else s.lastSampleTimestamp }
      sampled := sampleDue s e
      sampledTOF := sampleDue s e && s.sensorOnlineTOF
      sampledLIS := sampleDue s e && s.sensorOnlineLIS3DH
      ranSelfTest := false
      selfTestScans := []
      halted := false }

/-- Repeated `loop()` iterations, one environment per iteration, stopping
early if an iteration enters the permanent halt.  Returns the final state
and the number of iterations that executed the self-test body. -/
def runLoop (s : SysState) (envs : List LoopEnv) : SysState × Nat :=
  match envs with
  | [] => (s, 0)
  | e :: es =>
    let r := loopStep s e
    if r.halted then (r.state, if r.ranSelfTest then 1 else 0)
    else
      let rest := runLoop r.state es
      (rest.1, (if r.ranSelfTest then 1 else 0) + rest.2)

/-! ## Scanner lemmas -/

lemma scanGo_nil (outcome : Nat → Nat) (devs probed : List Nat) :
    scanGo outcome [] devs probed = ⟨devs, probed, none⟩ := rfl

lemma scanGo_cons (outcome : Nat → Nat) (a : Nat) (rest devs probed : List Nat) :
    scanGo outcome (a :: rest) devs probed =
      if outcome a = 0 then
        if (devs ++ [a]).length = 9 then ⟨devs ++ [a], probed ++ [a], none⟩
        else scanGo outcome rest (devs ++ [a]) (probed ++ [a])
      else if outcome a = 4 then ⟨devs, probed ++ [a], some a⟩
      else scanGo outcome rest devs (probed ++ [a]) := rfl

/-- Starting strictly below the capacity, the device accumulator never
exceeds 9 entries: the loop breaks the moment the 9th device is appended. -/
lemma scanGo_devs_le (outcome : Nat → Nat) :
    ∀ (addrs devs probed : List Nat), devs.length < 9 →
      (scanGo outcome addrs devs probed).devs.length ≤ 9 := by
  intro addrs
  induction addrs with
  | nil => intro devs probed h; rw [scanGo_nil]; exact Nat.le_of_lt h
  | cons a rest ih =>
    intro devs probed h
    rw [scanGo_cons]
    by_cases h0 : outcome a = 0
    · rw [if_pos h0]
      by_cases h9 : (devs ++ [a]).length = 9
      · rw [if_pos h9]; exact Nat.le_of_eq h9
      · rw [if_neg h9]
        apply ih
        simp only [List.length_append, List.length_cons, List.length_nil] at h9 ⊢
        omega
    · rw [if_neg h0]
      by_cases h4 : outcome a = 4
      · rw [if_pos h4]; exact Nat.le_of_lt h
      · rw [if_neg h4]; exact ih devs (probed ++ [a]) h

/-- If the accumulator reaches exactly 9 devices, the scan stopped at the
cap: the last address probed is the 9th discovered device. -/
lemma scanGo_cap_getLast (outcome : Nat → Nat) :
    ∀ (addrs devs probed : List Nat), devs.length < 9 →
      (scanGo outcome addrs devs probed).devs.length = 9 →
      (scanGo outcome addrs devs probed).probed.getLast? =
        (scanGo outcome addrs devs probed).devs.getLast? := by
  intro addrs
  induction addrs with
  | nil =>
    intro devs probed h h9
    rw [scanGo_nil] at h9
    exact absurd h9 (Nat.ne_of_lt h)
  | cons a rest ih =>
    intro devs probed h
    rw [scanGo_cons]
    by_cases h0 : outcome a = 0
    · rw [if_pos h0]
      by_cases h9 : (devs ++ [a]).length = 9
      · rw [if_pos h9]
        intro _
        simp [List.getLast?_concat]
      · rw [if_neg h9]
        apply ih
        simp only [List.length_append, List.length_cons, List.length_nil] at h9 ⊢
        omega
    · rw [if_neg h0]
      by_cases h4 : outcome a = 4
      · rw [if_pos h4]
        intro h9
        exact absurd h9 (Nat.ne_of_lt h)
      · rw [if_neg h4]
        exact ih devs (probed ++ [a]) h

/-- Behaviour of the scan loop on a fault: if no address of `pre` carries
the fault code, `a` does, and the acknowledgments inside `pre` cannot fill
the accumulator up to the capacity, then the loop walks all of `pre`
(collecting exactly its acknowledging addresses), aborts at `a`, and never
looks at `post`. -/
lemma scanGo_fault (outcome : Nat → Nat) (a : Nat) (post : List Nat)
    (ha : outcome a = 4) :
    ∀ (pre devs probed : List Nat),
      (∀ b ∈ pre, outcome b ≠ 4) →
      devs.length + (pre.filter (fun b => outcome b == 0)).length < 9 →
      scanGo outcome (pre ++ a :: post) devs probed =
        ⟨devs ++ pre.filter (fun b => outcome b == 0), probed ++ pre ++ [a], some a⟩ := by
  intro pre
  induction pre with
  | nil =>
    intro devs probed hp hlen
    have h0 : ¬(outcome a = 0) := by rw [ha]; decide
    rw [List.nil_append, scanGo_cons, if_neg h0, if_pos ha]
    simp
  | cons p pre ih =>
    intro devs probed hp hlen
    have hp4 : outcome p ≠ 4 := hp p (List.mem_cons_self p pre)
    have hptail : ∀ b ∈ pre, outcome b ≠ 4 := fun b hb => hp b (List.mem_cons_of_mem p hb)
    rw [List.cons_append, scanGo_cons]
    by_cases h0 : outcome p = 0
    · rw [if_pos h0]
      have hfc : (p :: pre).filter (fun b => outcome b == 0) =
          p :: pre.filter (fun b => outcome b == 0) := by
        simp [List.filter_cons, h0]
      rw [hfc] at hlen
      simp only [List.length_cons] at hlen
      have h9 : ¬((devs ++ [p]).length = 9) := by
        simp only [List.length_append, List.length_cons, List.length_nil]
        omega
      rw [if_neg h9]
      rw [ih (devs ++ [p]) (probed ++ [p]) hptail
        (by simp only [List.length_append, List.length_cons, List.length_nil]; omega)]
      rw [hfc]
      simp [List.append_assoc]
    · rw [if_neg h0, if_neg hp4]
      have hfc : (p :: pre).filter (fun b => outcome b == 0) =
          pre.filter (fun b => outcome b == 0) := by
        simp [List.filter_cons, h0]
      rw [hfc] at hlen
      rw [ih devs (probed ++ [p]) hptail hlen, hfc]
      simp [List.append_assoc]

/-- Splitting the scanned address range 1..126 at an address `a` inside it. -/
lemma scanAddresses_split (a : Nat) (h1 : 1 ≤ a) (h2 : a ≤ 126) :
    scanAddresses = List.range' 1 (a - 1) ++ a :: List.range' (a + 1) (126 - a) := by
  have h3 : a :: List.range' (a + 1) (126 - a) = List.range' a (126 - a + 1) := by
    rw [List.range'_succ]
  rw [h3]
  have h4 : List.range' 1 (a - 1) ++ List.range' (1 + (a - 1)) (126 - a + 1) =
      List.range' 1 (126 - a + 1 + (a - 1)) := List.range'_append_1 1 (a - 1) (126 - a + 1)
  have h5 : 1 + (a - 1) = a := by omega
  have h6 : 126 - a + 1 + (a - 1) = 126 := by omega
  rw [h5, h6] at h4
  show List.range' 1 126 = _
  rw [← h4]

/-- C5: a completed scan reports at most 9 discovered addresses, and when it
reports exactly 9 the scan stopped at the cap: the last address it probed is
the 9th discovered device, so no address beyond it was examined. -/
theorem claim_C5_report_cap (outcome : Nat → Nat) :
    (i2cScan outcome).devices.length ≤ 9 ∧
    ((i2cScan outcome).devices.length = 9 →
      (i2cScan outcome).probed.getLast? = (i2cScan outcome).devices.getLast?) := by
  have hle := scanGo_devs_le outcome scanAddresses [] [] (by decide)
  have hcap := scanGo_cap_getLast outcome scanAddresses [] [] (by decide)
  rcases hacc : scanGo outcome scanAddresses [] [] with ⟨devs, probed, fault⟩
  rw [hacc] at hle hcap
  cases fault with
  | some b =>
    constructor
    · simp [i2cScan, hacc, scanFinish, ScanRun.devices]
    · intro h9
      simp [i2cScan, hacc, scanFinish, ScanRun.devices] at h9
  | none =>
    by_cases hd : devs.length = 0
    · constructor
      · simp [i2cScan, hacc, scanFinish, hd, ScanRun.devices]
      · intro h9
        simp [i2cScan, hacc, scanFinish, hd, ScanRun.devices] at h9
    · constructor
      · simpa [i2cScan, hacc, scanFinish, hd, ScanRun.devices] using hle
      · intro h9
        have h9a : devs.length = 9 := by
          simpa [i2cScan, hacc, scanFinish, hd, ScanRun.devices] using h9
        have := hcap h9a
        simpa [i2cScan, hacc, scanFinish, hd, ScanRun.devices] using this

/-- C5 witness: on a bus where every address acknowledges, the scan reports
exactly the 9 addresses 1..9 and the last address probed is address 9. -/
theorem claim_C5_report_cap_witness :
    (i2cScan (fun x => 0)).devices.length = 9 ∧
    (i2cScan (fun x => 0)).probed.getLast? = (i2cScan (fun x => 0)).devices.getLast? :=
  ⟨by decide, (claim_C5_report_cap (fun x => 0)).2 (by decide)⟩

/-- A bus where addresses 1..9 acknowledge and address 10 carries the
bus-fault code: the cap is reached before the faulting address. -/
def capThenFaultOutcome : Nat → Nat :=
  fun a => if a ≤ 9 then 0 else if a = 10 then 4 else 2

/-- C4 counterexample: address 10 carries the bus-fault code 4, yet the scan
does not report a bus fault — it reports the 9-device list and never probes
address 10, because the report cap of 9 devices is reached first. -/
theorem claim_C4_counterexample :
    capThenFaultOutcome 10 = 4 ∧
    (i2cScan capThenFaultOutcome).report = ScanReport.found [1, 2, 3, 4, 5, 6, 7, 8, 9] ∧
    decide ((i2cScan capThenFaultOutcome).report = ScanReport.busFault 10) = false ∧
    decide (10 ∈ (i2cScan capThenFaultOutcome).probed) = false := by
  decide

/-- C4 (amended): if an address `a` in 1..126 carries the bus-fault code 4,
no smaller scanned address carries it, and fewer than 9 smaller addresses
acknowledge (so the report cap cannot preempt the fault), then the scan
terminates at `a`, reports exactly that address, and the addresses examined
are precisely 1..a — none beyond `a`. -/
theorem claim_C4_amended (outcome : Nat → Nat) (a : Nat)
    (h1 : 1 ≤ a) (h2 : a ≤ 126) (hfault : outcome a = 4)
    (hfirst : ∀ b, b < a → 1 ≤ b → outcome b ≠ 4)
    (hcap : ((List.range' 1 (a - 1)).filter (fun b => outcome b == 0)).length < 9) :
    (i2cScan outcome).report = ScanReport.busFault a ∧
    (i2cScan outcome).probed = List.range' 1 a := by
  have hpre : ∀ b ∈ List.range' 1 (a - 1), outcome b ≠ 4 := by
    intro b hb
    rw [List.mem_range'_1] at hb
    exact hfirst b (by omega) hb.1
  have hrun := scanGo_fault outcome a (List.range' (a + 1) (126 - a)) hfault
    (List.range' 1 (a - 1)) [] [] hpre (by simpa using hcap)
  have hscan : scanGo outcome scanAddresses [] [] =
      ⟨(List.range' 1 (a - 1)).filter (fun b => outcome b == 0),
        List.range' 1 (a - 1) ++ [a], some a⟩ := by
    rw [scanAddresses_split a h1 h2, hrun]
    simp
  have hlast : List.range' 1 (a - 1) ++ [a] = List.range' 1 a := by
    have h4 := List.range'_append_1 1 (a - 1) 1
    have h5 : 1 + (a - 1) = a := by omega
    rw [h5, List.range'_one] at h4
    exact h4
  constructor
  · simp [i2cScan, hscan, scanFinish]
  · rw [← hlast]
    simp [i2cScan, hscan, scanFinish]

/-- A bus where address 1 acknowledges, address 3 carries the bus-fault
code, and every other address answers with a plain no-acknowledgment. -/
def faultAfterOneAck : Nat → Nat :=
  fun b => if b = 3 then 4 else if b = 1 then 0 else 2

/-- C4 amended witness: with one acknowledging address below the fault, the
scan aborts at address 3, reports it, and probes exactly addresses 1..3. -/
theorem claim_C4_amended_witness :
    (i2cScan faultAfterOneAck).report = ScanReport.busFault 3 ∧
    (i2cScan faultAfterOneAck).probed = List.range' 1 3 :=
  claim_C4_amended faultAfterOneAck 3 (by decide) (by decide) (by decide)
    (by decide) (by decide)

/-- A bus where no address answers at all. -/
def allNackOutcome : Nat → Nat := fun x => 2

/-- A bus whose very first probed address reports the bus-fault code. -/
def faultImmediatelyOutcome : Nat → Nat := fun x => 4

/-- C7 counterexample: an empty completed scan and a bus-fault abort produce
different reports but the very same value `false` (`return 0`) to the
caller — the caller of `i2cScan()` cannot tell the two apart from what the
function returns. -/
theorem claim_C7_counterexample :
    (i2cScan allNackOutcome).report = ScanReport.noDevices ∧
    (i2cScan faultImmediatelyOutcome).report = ScanReport.busFault 1 ∧
    (i2cScan allNackOutcome).retval = false ∧
    (i2cScan faultImmediatelyOutcome).retval = false := by
  decide

/-- C7 (amended): the logged report does distinguish the three mutually
exclusive outcomes (the bus-fault form is a different constructor from the
no-device form), but the boolean returned to the caller is true exactly for
the device-list report, so bus-fault and zero-devices both return false. -/
theorem claim_C7_amended (outcome : Nat → Nat) (a : Nat) :
    (i2cScan outcome).retval = (i2cScan outcome).reportListsDevices ∧
    decide (ScanReport.busFault a = ScanReport.noDevices) = false ∧
    decide (ScanReport.busFault a = ScanReport.found []) = false := by
  refine ⟨?_, decide_eq_false (fun h => ScanReport.noConfusion h),
    decide_eq_false (fun h => ScanReport.noConfusion h)⟩
  rcases hacc : scanGo outcome scanAddresses [] [] with ⟨devs, probed, fault⟩
  cases fault with
  | some b => simp [i2cScan, hacc, scanFinish, ScanRun.reportListsDevices]
  | none =>
    by_cases hd : devs.length = 0
    · simp [i2cScan, hacc, scanFinish, hd, ScanRun.reportListsDevices]
    · simp [i2cScan, hacc, scanFinish, hd, ScanRun.reportListsDevices]

/-! ## FRAM version check: C6 -/

/-- C6: during initialization, if the stored version byte differs from the
expected constant 42 the store is erased, the expected version is written
and read back, and the store-integrity check passes exactly when the
read-back equals 42; if the stored byte already matches, the check passes
directly and neither erase nor put is invoked (only the initial read). -/
theorem claim_C6_fram_version_check (v0 v1 : Nat) :
    (v0 = FRAMversionNumber →
      framCheck ⟨v0, v1⟩ = (true, [FramOp.get FRAM.versionAddr])) ∧
    (v0 ≠ FRAMversionNumber →
      (framCheck ⟨v0, v1⟩).2 =
        [FramOp.get FRAM.versionAddr, FramOp.erase,
         FramOp.put FRAM.versionAddr FRAMversionNumber, FramOp.get FRAM.versionAddr] ∧
      (framCheck ⟨v0, v1⟩).1 = decide (v1 = FRAMversionNumber)) := by
  constructor
  · intro h
    simp [framCheck, h]
  · intro h
    refine ⟨by simp [framCheck, h], ?_⟩
    by_cases hv : v1 = FRAMversionNumber
    · simp [framCheck, h, hv]
    · simp [framCheck, h, hv]

/-- C6 witness: a matching stored byte (42) passes with only the initial
read; a mismatching byte (41) triggers erase, rewrite and read-back, and
the verdict equals the read-back comparison. -/
theorem claim_C6_fram_version_check_witness :
    framCheck ⟨42, 0⟩ = (true, [FramOp.get FRAM.versionAddr]) ∧
    (framCheck ⟨41, 42⟩).2 =
      [FramOp.get FRAM.versionAddr, FramOp.erase,
       FramOp.put FRAM.versionAddr FRAMversionNumber, FramOp.get FRAM.versionAddr] ∧
    (framCheck ⟨41, 42⟩).1 = decide ((42 : Nat) = FRAMversionNumber) :=
  ⟨(claim_C6_fram_version_check 42 0).1 (by decide),
   ((claim_C6_fram_version_check 41 42).2 (by decide)).1,
   ((claim_C6_fram_version_check 41 42).2 (by decide)).2⟩

/-! ## `setup()` health aggregation: C2, C10 -/

/-- C2: after initialization `carrierOnline` is exactly the logical AND of
the store-integrity verdict and the RTC-detection result, for every prior
state and every hardware environment — no other input feeds it. -/
theorem claim_C2_carrierOnline_is_and (s : SysState) (env : SetupEnv) :
    (setup s env).state.carrierOnline = ((framCheck env.fram).1 && env.rtcDetected) := by
  cases h : env.rtcDetected <;> cases h2 : (framCheck env.fram).1 <;>
    simp [setup, h, h2]

/-- C10: in every run of `setup()` the watchdog-arming operation (at the
maximum timeout) appears in the trace at position 9, unconditionally, while
the terminal accept/halt decision is the last operation (position 11 of
12); so the permanent halt, when taken, is entered with the watchdog
already armed. -/
theorem claim_C10_watchdog_armed_before_decision (s : SysState) (env : SetupEnv) :
    (setup s env).trace.length = 12 ∧
    (setup s env).trace[9]? = some SetupOp.armWatchdogMax ∧
    (setup s env).trace[11]? =
      some (if (setup s env).halted then SetupOp.haltForever else SetupOp.accept) ∧
    ((setup s env).trace[11]? = some SetupOp.accept ∨
      (setup s env).trace[11]? = some SetupOp.haltForever) := by
  have h3 : (setup s env).trace[11]? =
      some (if (setup s env).halted then SetupOp.haltForever else SetupOp.accept) := rfl
  refine ⟨rfl, rfl, h3, ?_⟩
  rw [h3]
  cases h : (setup s env).halted
  · left; simp
  · right; simp

/-! ## Loop lemmas: the one-shot latch, flag monotonicity, the sample gate -/

/-- After any `loop()` iteration the one-shot latch is down: either it was
already down, or the self-test just consumed it (line 163). -/
lemma loopStep_powerCycle_false (s : SysState) (e : LoopEnv) :
    (loopStep s e).state.powerCycleOnce = false := by
  cases h : s.powerCycleOnce <;> simp [loopStep, h]

/-- The self-test body runs exactly when the latch is armed on entry. -/
lemma loopStep_ranSelfTest_eq (s : SysState) (e : LoopEnv) :
    (loopStep s e).ranSelfTest = s.powerCycleOnce := by
  cases h : s.powerCycleOnce <;> simp [loopStep, h]

/-- From a disarmed state, no iteration ever runs the self-test. -/
lemma runLoop_count_disarmed (envs : List LoopEnv) :
    ∀ s : SysState, s.powerCycleOnce = false → (runLoop s envs).2 = 0 := by
  induction envs with
  | nil => intro s _; rfl
  | cons e es ih =>
    intro s h
    have hr : (loopStep s e).ranSelfTest = false := by
      rw [loopStep_ranSelfTest_eq, h]
    by_cases hh : (loopStep s e).halted = true
    · simp [runLoop, hh, hr]
    · simp [runLoop, hh, hr, ih _ (loopStep_powerCycle_false s e)]

/-- C3: the latch starts armed, every iteration leaves it disarmed, and
over any sequence of iterations the self-test body executes at most once. -/
theorem claim_C3_selftest_at_most_once :
    initState.powerCycleOnce = true ∧
    (∀ (s : SysState) (e : LoopEnv), (loopStep s e).state.powerCycleOnce = false) ∧
    (∀ (s : SysState) (envs : List LoopEnv), (runLoop s envs).2 ≤ 1) := by
  refine ⟨rfl, loopStep_powerCycle_false, ?_⟩
  intro s envs
  cases h : s.powerCycleOnce
  · have := runLoop_count_disarmed envs s h
    omega
  · cases envs with
    | nil => simp [runLoop]
    | cons e es =>
      have hr : (loopStep s e).ranSelfTest = true := by
        rw [loopStep_ranSelfTest_eq, h]
      have h2 := runLoop_count_disarmed es (loopStep s e).state
        (loopStep_powerCycle_false s e)
      by_cases hh : (loopStep s e).halted = true
      · simp [runLoop, hh, hr]
      · simp [runLoop, hh, hr, h2]

/-- One iteration can only raise the accelerometer flag: it becomes true
when the armed self-test re-initialization succeeds and is otherwise left
exactly as it was. -/
lemma loopStep_lis_eq (s : SysState) (e : LoopEnv) :
    (loopStep s e).state.sensorOnlineLIS3DH =
      (s.sensorOnlineLIS3DH || (s.powerCycleOnce && e.accelReSetupOk)) := by
  cases h : s.powerCycleOnce <;> cases ha : e.accelReSetupOk <;>
    cases hl : s.sensorOnlineLIS3DH <;> simp [loopStep, h, ha, hl]

/-- One iteration can only raise the TOF flag, symmetrically. -/
lemma loopStep_tof_eq (s : SysState) (e : LoopEnv) :
    (loopStep s e).state.sensorOnlineTOF =
      (s.sensorOnlineTOF || (s.powerCycleOnce && decide (e.tofReBeginCode = 0))) := by
  cases h : s.powerCycleOnce <;> cases hl : s.sensorOnlineTOF <;>
    by_cases ht : e.tofReBeginCode = 0 <;> simp [loopStep, h, hl, ht]

/-- A raised accelerometer flag stays raised across any run. -/
lemma runLoop_lis_mono (envs : List LoopEnv) :
    ∀ s : SysState, s.sensorOnlineLIS3DH = true →
      (runLoop s envs).1.sensorOnlineLIS3DH = true := by
  induction envs with
  | nil => intro s h; exact h
  | cons e es ih =>
    intro s h
    have hstep : (loopStep s e).state.sensorOnlineLIS3DH = true := by
      rw [loopStep_lis_eq, h, Bool.true_or]
    by_cases hh : (loopStep s e).halted = true
    · simp [runLoop, hh, hstep]
    · simp [runLoop, hh]
      exact ih _ hstep

/-- A raised TOF flag stays raised across any run. -/
lemma runLoop_tof_mono (envs : List LoopEnv) :
    ∀ s : SysState, s.sensorOnlineTOF = true →
      (runLoop s envs).1.sensorOnlineTOF = true := by
  induction envs with
  | nil => intro s h; exact h
  | cons e es ih =>
    intro s h
    have hstep : (loopStep s e).state.sensorOnlineTOF = true := by
      rw [loopStep_tof_eq, h, Bool.true_or]
    by_cases hh : (loopStep s e).halted = true
    · simp [runLoop, hh, hstep]
    · simp [runLoop, hh]
      exact ih _ hstep

/-- C8: after setup, the sensor flags are never assigned false again.  Each
iteration computes the new flag as the old one OR-ed with a successful
armed re-initialization (so a failed re-initialization leaves the flag
unchanged and every executed assignment stores true), and over any run a
true flag is absorbed: it can never drop back to false. -/
theorem claim_C8_flags_never_cleared :
    (∀ (s : SysState) (e : LoopEnv),
      (loopStep s e).state.sensorOnlineLIS3DH =
        (s.sensorOnlineLIS3DH || (s.powerCycleOnce && e.accelReSetupOk)) ∧
      (loopStep s e).state.sensorOnlineTOF =
        (s.sensorOnlineTOF || (s.powerCycleOnce && decide (e.tofReBeginCode = 0)))) ∧
    (∀ (s : SysState) (envs : List LoopEnv),
      (s.sensorOnlineLIS3DH || (runLoop s envs).1.sensorOnlineLIS3DH) =
        (runLoop s envs).1.sensorOnlineLIS3DH ∧
      (s.sensorOnlineTOF || (runLoop s envs).1.sensorOnlineTOF) =
        (runLoop s envs).1.sensorOnlineTOF) := by
  refine ⟨fun s e => ⟨loopStep_lis_eq s e, loopStep_tof_eq s e⟩, ?_⟩
  intro s envs
  constructor
  · cases h : s.sensorOnlineLIS3DH
    · simp
    · rw [runLoop_lis_mono envs s h]
      simp
  · cases h : s.sensorOnlineTOF
    · simp
    · rw [runLoop_tof_mono envs s h]
      simp

/-- C9: a sample round happens only when the 32-bit elapsed time since
`lastSampleTimestamp` strictly exceeds the 2000 ms interval; when the
elapsed time equals the interval exactly, no sample is taken. -/
theorem claim_C9_strict_sample_gate (s : SysState) (e : LoopEnv) :
    ((loopStep s e).sampled = true →
      sampleRateMillis < u32sub e.now s.lastSampleTimestamp) ∧
    (u32sub e.now s.lastSampleTimestamp = sampleRateMillis →
      (loopStep s e).sampled = false) := by
  have hs : (loopStep s e).sampled = sampleDue s e := by
    cases h : s.powerCycleOnce <;> simp [loopStep, h]
  constructor
  · intro h
    rw [hs] at h
    exact of_decide_eq_true h
  · intro h
    rw [hs]
    simp only [sampleDue]
    rw [h]
    simp

/-- An iteration environment whose first `millis()` reading equals the
sample interval exactly, with the timer still at 0. -/
def boundaryLoopEnv : LoopEnv :=
  { now := 2000
    nowAtUpdate := 2001
    tofDistance := 0
    accelSampleOk := true
    scanWithPower := fun b => 2
    scanWithoutPower := fun b => 2
    scanRestored := fun b => 2
    rtcDetected := true
    accelReSetupOk := true
    tofReBeginCode := 0 }

/-- C9 witness: at an elapsed time of exactly 2000 ms no sample is taken. -/
theorem claim_C9_strict_sample_gate_witness :
    u32sub boundaryLoopEnv.now initState.lastSampleTimestamp = sampleRateMillis ∧
    (loopStep initState boundaryLoopEnv).sampled = false :=
  ⟨by decide, (claim_C9_strict_sample_gate initState boundaryLoopEnv).2 (by decide)⟩

/-! ## C1: the self-test does not latch a failed re-initialization -/

/-- The global state with which `loop()` is first entered after a fully
successful `setup()`: all health flags true, the one-shot latch armed. -/
def stateAfterGoodSetup : SysState :=
  { sensorOnlineTOF := true
    sensorOnlineLIS3DH := true
    carrierOnline := true
    powerCycleOnce := true
    lastSampleTimestamp := 0 }

/-- A self-test iteration in which the post-power-restore accelerometer
re-initialization fails (`accel.setup` returns false) while the TOF
re-initialization succeeds. -/
def selfTestAccelFailEnv : LoopEnv :=
  { now := 0
    nowAtUpdate := 0
    tofDistance := 0
    accelSampleOk := true
    scanWithPower := fun b => 2
    scanWithoutPower := fun b => 2
    scanRestored := fun b => 2
    rtcDetected := true
    accelReSetupOk := false
    tofReBeginCode := 0 }

/-- C1: evaluating the code at the failing input.  The self-test runs with
a failing accelerometer re-initialization, yet `sensorOnlineLIS3DH` stays
true (the flag is only ever assigned true; a failure skips the assignment)
and the iteration does not halt — the halt branch of lines 196-199 cannot
fire.  This contradicts the claimed behaviour that the flag becomes false
and the system enters a permanent halt. -/
theorem claim_C1_selftest_failure_not_latched :
    selfTestAccelFailEnv.accelReSetupOk = false ∧
    (loopStep stateAfterGoodSetup selfTestAccelFailEnv).ranSelfTest = true ∧
    (loopStep stateAfterGoodSetup selfTestAccelFailEnv).state.sensorOnlineLIS3DH = true ∧
    (loopStep stateAfterGoodSetup selfTestAccelFailEnv).halted = false :=
  ⟨rfl, rfl, rfl, rfl⟩

end TrashcanPanda
